import Mathlib

/-!
Shallow embedding of the tixer-tickets store (gcfirestore/ticket.go) and
domain model (ticket.go in package tixer), together with proofs of the
specification's claims about it.

Modelling conventions:
* A Firestore document ID is a UUID string; lexicographic order on UUID
  strings coincides with numeric order on the 128-bit value, so ticket IDs
  are modelled as `Nat`, with `0` standing for `uuid.Nil` (the all-zero
  UUID used by the code as the "no cursor" sentinel).
* The counter document lives in the same collection under the reserved ID
  `"--counter--"`, which is never a UUID string, so it can never collide
  with a ticket document; the state therefore keeps the ticket documents
  and the (optional) counter document separately.  The collection query in
  `ReadTickets` orders by the `dateCreated` field, and Firestore excludes
  documents lacking the order-by field, so the counter document never
  appears in query results.
* `time.Time` values are modelled as `Nat` logical timestamps; the zero
  value of `time.Time` is `0`.  Firestore's `ServerTimestamp` is passed to
  each operation as an explicit `now` argument.
* Go `float64` prices are modelled as `Rat`: the store never performs
  arithmetic on prices, only equality comparison with `0` and copying,
  for which `Rat` is a faithful stand-in.
* A Firestore transaction commits all of its writes or none: an operation
  returns `Except StoreErr` where `.error` means the transaction aborted
  and the state is unchanged.
-/

deriving instance DecidableEq for Except

namespace Tixer

/-- A ticket document as persisted in Firestore (fields of
`persistedTicket`), also serving as the domain `tixer.Ticket`
(`toDomainTicket` is a field-for-field copy). -/
structure Ticket where
  id : Nat
  title : String
  price : Rat
  dateCreated : Nat
  dateUpdated : Nat
deriving DecidableEq, Repr

/-- Errors surfaced by the store: `tixer.ErrTicketNotFound`, the gRPC
`AlreadyExists` status propagated unchanged from `tx.Create`, a raw gRPC
`NotFound` status propagated unchanged (e.g. `tx.Update` on a missing
counter document), and `gcfirestore.ErrCounterNotFound`. -/
inductive StoreErr where
  | ticketNotFound
  | alreadyExists
  | grpcNotFound
  | counterNotFound
deriving DecidableEq, Repr

/-- The Firestore collection state: the ticket documents plus the counter
document (`none` when the counter document is missing; `some c` holds its
`totalTickets` field, a Go `int`). -/
structure StoreState where
  tickets : List Ticket
  counter : Option Int
deriving DecidableEq, Repr

/-- `tixer.Filter`; a `0` cursor is `uuid.Nil`, meaning "not supplied". -/
structure Filter where
  before : Nat
  after : Nat
  limit : Nat
deriving DecidableEq, Repr

/-- `tixer.Metadata`. -/
structure Metadata where
  before : Nat
  after : Nat
  total : Int
deriving DecidableEq, Repr

/-- Document lookup by ID (`client.Collection(..).Doc(id).Get`). -/
def findTicket (s : StoreState) (id : Nat) : Option Ticket :=
  s.tickets.find? (fun d => d.id == id)

/-- Whether a document with the given ID exists in the collection. -/
def hasTicket (s : StoreState) (id : Nat) : Bool :=
  s.tickets.any (fun d => d.id == id)

/-- The document written by `tx.Create` in `CreateTicket`: the
`createTicket` struct carries only `title`, `price` and a server-assigned
`dateCreated`; no `dateUpdated` field is written, so a later read
materialises it as the zero `time.Time`. -/
def mkCreatedDoc (now : Nat) (t : Ticket) : Ticket :=
  { id := t.id, title := t.title, price := t.price,
    dateCreated := now, dateUpdated := 0 }

/-- `Storer.CreateTicket`: one transaction that (a) `tx.Create`s the
ticket document — failing with `AlreadyExists` if a document with that ID
exists — and (b) `tx.Update`s the counter with `Increment(1)` — failing
with a raw `NotFound` if the counter document is missing.  Either failure
aborts the whole transaction. -/
def createTicketOp (s : StoreState) (now : Nat) (t : Ticket) :
    Except StoreErr StoreState :=
  if hasTicket s t.id then
    .error .alreadyExists
  else
    match s.counter with
    | none => .error .grpcNotFound
    | some c =>
        .ok { tickets := mkCreatedDoc now t :: s.tickets,
              counter := some (c + 1) }

/-- The state after running `CreateTicket`: a transaction that aborts
leaves the collection unchanged. -/
def createTicketAfter (s : StoreState) (now : Nat) (t : Ticket) : StoreState :=
  match createTicketOp s now t with
  | .error _ => s
  | .ok s2 => s2

/-- `Storer.readTicket`: a single-document get, mapping the gRPC
`NotFound` status to `tixer.ErrTicketNotFound`. -/
def readTicketOp (s : StoreState) (id : Nat) : Except StoreErr Ticket :=
  match findTicket s id with
  | none => .error .ticketNotFound
  | some d => .ok d

/-- The field updates applied by `Storer.UpdateTicket` inside its
transaction: `dateUpdated` is always set to the server timestamp; `title`
is written only when the input title is nonempty; `price` only when the
input price is nonzero. -/
def applyUpdates (d : Ticket) (now : Nat) (t : Ticket) : Ticket :=
  { d with
    dateUpdated := now,
    title := if t.title ≠ "" then t.title else d.title,
    price := if t.price ≠ 0 then t.price else d.price }

/-- The collection after `tx.Update` writes the field updates to the
document with the target ID. -/
def updatedTickets (s : StoreState) (now : Nat) (t : Ticket) : List Ticket :=
  s.tickets.map (fun d => if d.id == t.id then applyUpdates d now t else d)

/-- The transactional part of `Storer.UpdateTicket`: `tx.Get` the document
(mapping `NotFound` to `tixer.ErrTicketNotFound`), then `tx.Update` it
with the field updates of `applyUpdates`. -/
def updateTicketTxn (s : StoreState) (now : Nat) (t : Ticket) :
    Except StoreErr StoreState :=
  match findTicket s t.id with
  | none => .error .ticketNotFound
  | some _ => .ok { s with tickets := updatedTickets s now t }

/-- `Storer.UpdateTicket`: the transaction, followed by a separate
non-transactional `readTicket` that materialises the updated ticket. -/
def updateTicketOp (s : StoreState) (now : Nat) (t : Ticket) :
    Except StoreErr (StoreState × Ticket) :=
  match updateTicketTxn s now t with
  | .error e => .error e
  | .ok s2 =>
      match readTicketOp s2 t.id with
      | .error e => .error e
      | .ok d => .ok (s2, d)

/-- `Storer.DeleteTicket`: one transaction that (a) `tx.Delete`s the
ticket document — in Firestore a delete without a precondition succeeds
whether or not the document exists — and (b) `tx.Update`s the counter with
`Increment(-1)`, failing with a raw `NotFound` if the counter document is
missing.  Note that no existence check is performed on the ticket. -/
def deleteTicketOp (s : StoreState) (id : Nat) : Except StoreErr StoreState :=
  match s.counter with
  | none => .error .grpcNotFound
  | some c =>
      .ok { tickets := s.tickets.filter (fun d => d.id != id),
            counter := some (c - 1) }

/-- Strict query-order precedence for the `ReadTickets` query
`OrderBy("dateCreated", Desc)`: Firestore implicitly appends the document
name (`__name__`) with the same (descending) direction as a final sort
key, so `precedes a b` holds when `a` comes strictly earlier than `b` in
the result order. -/
def precedes (a b : Ticket) : Bool :=
  b.dateCreated < a.dateCreated ||
    (a.dateCreated == b.dateCreated && b.id < a.id)

/-- Non-strict version of the query order, used for sorting. -/
def docLe (a b : Ticket) : Bool :=
  b.dateCreated < a.dateCreated ||
    (a.dateCreated == b.dateCreated && b.id ≤ a.id)

/-- The query order as a relation. -/
def queryLe (a b : Ticket) : Prop :=
  docLe a b = true

instance : DecidableRel queryLe :=
  fun _ _ => inferInstanceAs (Decidable (_ = true))

instance : IsTotal Ticket queryLe :=
  ⟨by
    intro a b
    simp only [queryLe, docLe, Bool.or_eq_true, Bool.and_eq_true,
      decide_eq_true_eq, beq_iff_eq]
    omega⟩

instance : IsTrans Ticket queryLe :=
  ⟨by
    intro a b c
    simp only [queryLe, docLe, Bool.or_eq_true, Bool.and_eq_true,
      decide_eq_true_eq, beq_iff_eq]
    omega⟩

/-- The collection in query order: sorted by `dateCreated` descending,
ties broken by document name descending (Firestore's implicit `__name__`
sort key). -/
def sortDesc (l : List Ticket) : List Ticket :=
  l.insertionSort queryLe

/-- Cursor resolution in `ReadTickets`: the code compares the cursor
against `uuid.Nil` (here `0`); a supplied cursor is fetched with a direct
document get, mapping `NotFound` to `tixer.ErrTicketNotFound`. -/
def resolveCursor (s : StoreState) (id : Nat) : Except StoreErr (Option Ticket) :=
  if id == 0 then .ok none
  else
    match findTicket s id with
    | none => .error .ticketNotFound
    | some d => .ok (some d)

/-- The documents returned by the `ReadTickets` query: the collection in
query order, restricted to strictly after the `StartAfter` cursor document
and strictly before the `EndBefore` cursor document, truncated to the
query `Limit`.  (Firestore evaluates the ordered sequence, applies the
cursor bounds, and returns the first `limit` rows; on the sorted list the
cursor bounds are exactly the positional filter below.) -/
def pageFor (s : StoreState) (aft bef : Option Ticket) (limit : Nat) :
    List Ticket :=
  ((sortDesc s.tickets).filter (fun d =>
      (match aft with | none => true | some a => precedes a d) &&
      (match bef with | none => true | some b => precedes d b))).take limit

/-- The `Metadata.Before` cursor: ID of the first ticket of the page
(`tt[0].ID` when the page is nonempty, otherwise the zero `TicketID`). -/
def metaBefore (tt : List Ticket) : Nat :=
  match tt with
  | [] => 0
  | d :: _ => d.id

/-- The `Metadata.After` cursor: ID of the last ticket of the page
(`tt[len(tt)-1].ID` when the page is nonempty, otherwise zero). -/
def metaAfter (tt : List Ticket) : Nat :=
  match tt.getLast? with
  | none => 0
  | some d => d.id

/-- `Storer.ReadTickets`: resolve the `After` cursor, then the `Before`
cursor, run the bounded ordered query, read the counter document (missing
counter maps to `ErrCounterNotFound`), and assemble the page metadata.
Any failure returns no tickets and no metadata. -/
def readTicketsOp (s : StoreState) (f : Filter) :
    Except StoreErr (List Ticket × Metadata) :=
  match resolveCursor s f.after with
  | .error e => .error e
  | .ok aft =>
      match resolveCursor s f.before with
      | .error e => .error e
      | .ok bef =>
          let tt := pageFor s aft bef f.limit
          match s.counter with
          | none => .error .counterNotFound
          | some c =>
              .ok (tt, { before := metaBefore tt, after := metaAfter tt,
                         total := c })

/-- A single store mutation, for reasoning about operation sequences. -/
inductive Op where
  | create (now : Nat) (t : Ticket)
  | delete (id : Nat)
deriving Repr

/-- Apply one mutation to the store. -/
def applyOp (s : StoreState) : Op → Except StoreErr StoreState
  | .create now t => createTicketOp s now t
  | .delete id => deleteTicketOp s id

/-- Run a sequence of mutations, requiring every one to succeed
(`none` when some operation fails). -/
def runOps : StoreState → List Op → Option StoreState
  | s, [] => some s
  | s, op :: ops =>
      match applyOp s op with
      | .error _ => none
      | .ok s2 => runOps s2 ops

/-- Number of create operations in a sequence. -/
def countCreates (ops : List Op) : Nat :=
  ops.countP (fun op => match op with | .create _ _ => true | .delete _ => false)

/-- Number of delete operations in a sequence. -/
def countDeletes (ops : List Op) : Nat :=
  ops.countP (fun op => match op with | .create _ _ => false | .delete _ => true)

/-- The empty collection with a provisioned counter document reading 0
(the counter must be pre-provisioned: `CreateTicket` increments it with
`tx.Update`, which fails on a missing document). -/
def emptyState : StoreState :=
  { tickets := [], counter := some 0 }

/-- The paginated traversal of the spec's "concatenating successive pages
via `After` cursors": call `ReadTickets` with the previous page's
`Metadata.After` as the `After` cursor, starting with no cursor, stopping
at an empty page (fuel bounds the recursion). -/
def paginateAux (s : StoreState) (limit : Nat) : Nat → Nat → List (List Ticket)
  | _, 0 => []
  | cursor, fuel + 1 =>
      match readTicketsOp s { after := cursor, before := 0, limit := limit } with
      | .error _ => []
      | .ok (tt, md) =>
          match tt with
          | [] => []
          | _ :: _ => tt :: paginateAux s limit md.after fuel

/-- Full traversal starting from no cursor. -/
def paginate (s : StoreState) (limit : Nat) : List (List Ticket) :=
  paginateAux s limit 0 (s.tickets.length + 1)

/-- The validation helper of package `tixer-pkgs/validate`, modelled from
its `Validator` interface contract in the domain package: `Check` records
an error when its condition is false, and the validator is valid when no
error was recorded. -/
structure Validator where
  errors : List (String × String)
deriving DecidableEq, Repr

/-- `Valid()` — no errors recorded. -/
def Validator.valid (v : Validator) : Bool :=
  v.errors.isEmpty

/-- `Check(ok, key, message)` — record an error unless `ok`. -/
def Validator.check (v : Validator) (ok : Bool) (key msg : String) : Validator :=
  if ok then v else { errors := v.errors ++ [(key, msg)] }

/-- A fresh validator. -/
def Validator.new : Validator :=
  { errors := [] }

/-- `Ticket.ValidateTitle`: Go's `len` on a string counts UTF-8 bytes, so
the length bound is on `String.utf8ByteSize`. -/
def validateTitle (t : Ticket) (vld : Validator) : Validator :=
  (vld.check (t.title != "") "title" "must be provided").check
    (t.title.utf8ByteSize ≤ 50) "title" "must not be longer than 50 characters"


/-! Concrete fixtures used by the counterexamples and witnesses below. -/

/-- A sample ticket payload with ID 1. -/
def cexTicket : Ticket :=
  { id := 1, title := "a", price := 1, dateCreated := 0, dateUpdated := 0 }

/-- Create the ticket with ID 1, then delete the (absent) ID 2; both
operations succeed in the code. -/
def cexOps : List Op :=
  [Op.create 1 cexTicket, Op.delete 2]

/-- The state the code reaches after `cexOps`. -/
def cexFinal : StoreState :=
  { tickets := [mkCreatedDoc 1 cexTicket], counter := some 0 }

/-- A store holding exactly the ticket with ID 1, counter reading 1. -/
def oneTicketState : StoreState :=
  { tickets := [mkCreatedDoc 1 cexTicket], counter := some 1 }

/-- A 26-character title made of two-byte characters: 52 UTF-8 bytes. -/
def multibyteTitle : String :=
  String.mk (List.replicate 26 'é')

/-- A sample fresh ticket payload with ID 5. -/
def wTicketA : Ticket :=
  { id := 5, title := "A", price := 2, dateCreated := 0, dateUpdated := 0 }

/-- A sample fresh ticket payload with ID 6. -/
def wTicketB : Ticket :=
  { id := 6, title := "B", price := 3, dateCreated := 0, dateUpdated := 0 }

/-- A sample fresh ticket payload with ID 7. -/
def wTicketC : Ticket :=
  { id := 7, title := "C", price := 4, dateCreated := 0, dateUpdated := 0 }

/-- The state after creating `wTicketA`, `wTicketB`, `wTicketC` at times
1, 2, 3. -/
def threeTicketState : StoreState :=
  { tickets := [mkCreatedDoc 3 wTicketC, mkCreatedDoc 2 wTicketB,
                mkCreatedDoc 1 wTicketA],
    counter := some 3 }

/-- A store whose counter document is missing. -/
def noCounterState : StoreState :=
  { tickets := [], counter := none }

/-! Validator helper lemma. -/

/-- `Check` leaves the validator valid exactly when it was valid and the
checked condition holds. -/
theorem check_valid (v : Validator) (ok : Bool) (key msg : String) :
    (v.check ok key msg).valid = (v.valid && ok) := by
  cases ok <;> simp [Validator.check, Validator.valid]

/-- Claim C1: the counter-consistency invariant fails on the code.  From
the empty collection, `CreateTicket` of the ticket with ID 1 followed by
`DeleteTicket` of the absent ID 2 are both successful operations (the
Firestore delete performs no existence check), after which the counter
reads `1 − 1 = 0` — equal to creates minus deletes — while one ticket
document is persisted, so `Total` differs from the number of persisted
documents. -/
theorem counter_invariant_failure :
    runOps emptyState cexOps = some cexFinal ∧
    countCreates cexOps = 1 ∧ countDeletes cexOps = 1 ∧
    cexFinal.counter =
      some ((countCreates cexOps : Int) - (countDeletes cexOps : Int)) ∧
    cexFinal.tickets.length = 1 ∧
    cexFinal.counter ≠ some (cexFinal.tickets.length : Int) := by
  refine ⟨by decide, by decide, by decide, by decide, by decide, by decide⟩

/-- Claim C2: on a store holding exactly the ticket with ID 1 and counter
1, `UpdateTicket` of the nonexistent ID 2 does return `NotFound` (that
half of the claim holds here), but `DeleteTicket` of the nonexistent ID 2
succeeds instead of failing with `NotFound`, removes nothing, and still
decrements the counter to 0. -/
theorem delete_nonexistent_divergence :
    updateTicketOp oneTicketState 5
        { id := 2, title := "x", price := 1, dateCreated := 0, dateUpdated := 0 } =
      .error .ticketNotFound ∧
    deleteTicketOp oneTicketState 2 =
      .ok { tickets := oneTicketState.tickets, counter := some 0 } := by
  refine ⟨by decide, by decide⟩

/-- Claim C9 (counterexample): a title of 26 two-byte characters is
neither empty nor longer than 50 characters, yet `ValidateTitle` reports a
validation failure, because Go's `len` counts UTF-8 bytes (52 here). -/
theorem validateTitle_char_count_refuted :
    multibyteTitle ≠ "" ∧ multibyteTitle.length = 26 ∧
    multibyteTitle.utf8ByteSize = 52 ∧
    (validateTitle
        { id := 1, title := multibyteTitle, price := 1,
          dateCreated := 0, dateUpdated := 0 }
        Validator.new).valid = false := by
  refine ⟨by decide, by decide, by decide, by decide⟩

/-- Claim C9 (amended): `ValidateTitle` reports a validation failure if
and only if the title is empty or its UTF-8 byte length exceeds 50 (Go's
`len` on a string counts bytes, so multi-byte characters count once per
byte). -/
theorem validateTitle_valid_iff (t : Ticket) (v : Validator) :
    (validateTitle t v).valid = true ↔
      v.valid = true ∧ t.title ≠ "" ∧ t.title.utf8ByteSize ≤ 50 := by
  simp [validateTitle, check_valid, Bool.and_eq_true, and_assoc]

/-- Claim C3: `CreateTicket` is all-or-nothing.  If a document with the
same ID already exists the whole transaction fails with `AlreadyExists`
and the state — existing document and counter included — is untouched; on
any error the state is untouched; and on success the document is persisted
together with the counter increment. -/
theorem createTicket_all_or_nothing (s : StoreState) (now : Nat) (t : Ticket) :
    (hasTicket s t.id = true →
        createTicketOp s now t = .error .alreadyExists ∧
        createTicketAfter s now t = s) ∧
    (∀ e, createTicketOp s now t = .error e → createTicketAfter s now t = s) ∧
    (∀ s2, createTicketOp s now t = .ok s2 →
        hasTicket s t.id = false ∧
        ∃ c, s.counter = some c ∧
          s2.tickets = mkCreatedDoc now t :: s.tickets ∧
          s2.counter = some (c + 1)) := by
  refine ⟨?_, ?_, ?_⟩
  · intro h
    constructor
    · simp [createTicketOp, h]
    · simp [createTicketAfter, createTicketOp, h]
  · intro e he
    simp [createTicketAfter, he]
  · intro s2 h2
    by_cases h : hasTicket s t.id = true
    · simp [createTicketOp, h] at h2
    · cases hc : s.counter with
      | none => simp [createTicketOp, h, hc] at h2
      | some c =>
          have h2' : ({ tickets := mkCreatedDoc now t :: s.tickets,
                        counter := some (c + 1) } : StoreState) = s2 := by
            simpa [createTicketOp, h, hc] using h2
          subst h2'
          exact ⟨by simpa using h, c, rfl, rfl, rfl⟩

/-- Claim C3 witness: at a store already holding the ticket with ID 1,
re-creating ID 1 fails with `AlreadyExists` and changes nothing; from the
empty store, creating the ticket with ID 5 adds its document and
increments the counter. -/
theorem createTicket_all_or_nothing_witness :
    (createTicketOp oneTicketState 5 cexTicket = .error .alreadyExists ∧
     createTicketAfter oneTicketState 5 cexTicket = oneTicketState) ∧
    (hasTicket emptyState wTicketA.id = false ∧
     ∃ c, emptyState.counter = some c ∧
       ({ tickets := [mkCreatedDoc 5 wTicketA], counter := some 1 } :
           StoreState).tickets = mkCreatedDoc 5 wTicketA :: emptyState.tickets ∧
       ({ tickets := [mkCreatedDoc 5 wTicketA], counter := some 1 } :
           StoreState).counter = some (c + 1)) :=
  ⟨(createTicket_all_or_nothing oneTicketState 5 cexTicket).1 (by decide),
   (createTicket_all_or_nothing emptyState 5 wTicketA).2.2
     { tickets := [mkCreatedDoc 5 wTicketA], counter := some 1 } (by decide)⟩

/-- Claim C7: creating a ticket with a fresh ID and reading it back
returns a ticket with the same ID, title and price, `DateCreated` set to
the server timestamp of the creation, and `DateUpdated` unset (zero). -/
theorem create_read_roundtrip (s : StoreState) (now : Nat) (t : Ticket)
    (c : Int) (hfresh : hasTicket s t.id = false) (hc : s.counter = some c) :
    ∃ s2, createTicketOp s now t = .ok s2 ∧
      readTicketOp s2 t.id =
        .ok { id := t.id, title := t.title, price := t.price,
              dateCreated := now, dateUpdated := 0 } := by
  refine ⟨{ tickets := mkCreatedDoc now t :: s.tickets, counter := some (c + 1) },
    by simp [createTicketOp, hfresh, hc], ?_⟩
  have hfind : findTicket
      { tickets := mkCreatedDoc now t :: s.tickets, counter := some (c + 1) }
      t.id = some (mkCreatedDoc now t) :=
    List.find?_cons_of_pos _ (by simp [mkCreatedDoc])
  unfold readTicketOp
  rw [hfind]
  rfl

/-- Claim C7 witness: the round trip at the empty store with the ticket
with ID 5 created at time 9. -/
theorem create_read_roundtrip_witness :
    ∃ s2, createTicketOp emptyState 9 wTicketA = .ok s2 ∧
      readTicketOp s2 wTicketA.id =
        .ok { id := wTicketA.id, title := wTicketA.title,
              price := wTicketA.price, dateCreated := 9, dateUpdated := 0 } :=
  create_read_roundtrip emptyState 9 wTicketA 0 (by decide) (by decide)

/-! Helper lemmas about the update transaction. -/

/-- Mapping a per-document, ID-preserving update over the collection moves
`find?`-by-ID through the update. -/
theorem find?_map_update (l : List Ticket) (tid : Nat) (g : Ticket → Ticket)
    (hg : ∀ x, (g x).id = x.id) (d : Ticket)
    (hd : l.find? (fun x => x.id == tid) = some d) :
    (l.map fun x => if x.id == tid then g x else x).find?
        (fun x => x.id == tid) = some (g d) := by
  induction l with
  | nil => simp at hd
  | cons y l ih =>
      by_cases hy : (y.id == tid) = true
      · rw [List.find?_cons_of_pos (p := fun x : Ticket => x.id == tid) _ hy] at hd
        obtain rfl : y = d := by injection hd
        simp only [List.map_cons, if_pos hy]
        exact List.find?_cons_of_pos (p := fun x : Ticket => x.id == tid) _
          (by simpa only [hg] using hy)
      · rw [List.find?_cons_of_neg (p := fun x : Ticket => x.id == tid) _ hy] at hd
        simp only [List.map_cons, if_neg hy]
        rw [List.find?_cons_of_neg (p := fun x : Ticket => x.id == tid) _ hy]
        exact ih hd

/-- `UpdateTicket` on an existing document: the committed state and the
value materialised by the post-transaction read. -/
theorem updateTicketOp_eq (s : StoreState) (now : Nat) (t d : Ticket)
    (hd : findTicket s t.id = some d) :
    updateTicketOp s now t =
      .ok ({ s with tickets := updatedTickets s now t }, applyUpdates d now t) := by
  have h2 : (updatedTickets s now t).find? (fun x => x.id == t.id)
      = some (applyUpdates d now t) :=
    find?_map_update s.tickets t.id (fun x => applyUpdates x now t)
      (fun _ => rfl) d hd
  simp only [updateTicketOp, updateTicketTxn, hd]
  simp only [readTicketOp, findTicket]
  simp only [h2]

/-- Claim C5: partial-update frame condition.  For an existing ticket, a
title-only update (nonempty title, zero price) changes only the title and
`dateUpdated`; a price-only update changes only the price and
`dateUpdated`; any field not supplied (empty title / zero price) keeps its
previous stored value, both in the returned ticket and in the store. -/
theorem update_partial_frame (s : StoreState) (now : Nat) (t d : Ticket)
    (hd : findTicket s t.id = some d) :
    ∃ s2 r, updateTicketOp s now t = .ok (s2, r) ∧
      findTicket s2 t.id = some r ∧
      (t.title ≠ "" ∧ t.price = 0 →
        r = { d with title := t.title, dateUpdated := now }) ∧
      (t.title = "" ∧ t.price ≠ 0 →
        r = { d with price := t.price, dateUpdated := now }) ∧
      (t.title = "" → r.title = d.title) ∧
      (t.price = 0 → r.price = d.price) := by
  have h2 : (updatedTickets s now t).find? (fun x => x.id == t.id)
      = some (applyUpdates d now t) :=
    find?_map_update s.tickets t.id (fun x => applyUpdates x now t)
      (fun _ => rfl) d hd
  refine ⟨_, _, updateTicketOp_eq s now t d hd, h2, ?_, ?_, ?_, ?_⟩
  · rintro ⟨h1, hp⟩
    simp [applyUpdates, h1, hp]
  · rintro ⟨h1, hp⟩
    simp [applyUpdates, h1, hp]
  · intro h1
    simp [applyUpdates, h1]
  · intro hp
    simp [applyUpdates, hp]

/-- Claim C5 witness: a title-only update of the ticket with ID 1 leaves
its stored price unchanged. -/
theorem update_partial_frame_witness :
    ∃ s2 r, updateTicketOp oneTicketState 7
        { id := 1, title := "b", price := 0, dateCreated := 0, dateUpdated := 0 } =
      .ok (s2, r) ∧ r.price = (mkCreatedDoc 1 cexTicket).price := by
  obtain ⟨s2, r, h1, _, _, _, _, h6⟩ :=
    update_partial_frame oneTicketState 7
      { id := 1, title := "b", price := 0, dateCreated := 0, dateUpdated := 0 }
      (mkCreatedDoc 1 cexTicket) (by decide)
  exact ⟨s2, r, h1, h6 rfl⟩

/-- Claim C6: timestamp discipline.  Every successful update sets
`dateUpdated` to the server timestamp of the call — whatever business
fields were supplied — and preserves `dateCreated` (of the target and of
every document, since `applyUpdates` never touches it); a successful
create prepends a document whose `dateCreated` is the server timestamp of
the creation and leaves the existing documents untouched. -/
theorem update_timestamp_discipline (s : StoreState) (now : Nat) (t d : Ticket)
    (hd : findTicket s t.id = some d) :
    (∃ s2 r, updateTicketOp s now t = .ok (s2, r) ∧
      r.dateUpdated = now ∧ r.dateCreated = d.dateCreated ∧
      findTicket s2 t.id = some r ∧
      s2.tickets = updatedTickets s now t) ∧
    (∀ x, (applyUpdates x now t).dateCreated = x.dateCreated) ∧
    (∀ now2 t2 s2, createTicketOp s now2 t2 = .ok s2 →
      s2.tickets = mkCreatedDoc now2 t2 :: s.tickets ∧
      (mkCreatedDoc now2 t2).dateCreated = now2 ∧
      (mkCreatedDoc now2 t2).dateUpdated = 0) := by
  have h2 : (updatedTickets s now t).find? (fun x => x.id == t.id)
      = some (applyUpdates d now t) :=
    find?_map_update s.tickets t.id (fun x => applyUpdates x now t)
      (fun _ => rfl) d hd
  refine ⟨⟨_, _, updateTicketOp_eq s now t d hd, rfl, rfl, h2, rfl⟩,
    fun _ => rfl, ?_⟩
  intro now2 t2 s2 h
  by_cases hh : hasTicket s t2.id = true
  · simp [createTicketOp, hh] at h
  · cases hc : s.counter with
    | none => simp [createTicketOp, hh, hc] at h
    | some c =>
        have h2' : ({ tickets := mkCreatedDoc now2 t2 :: s.tickets,
                      counter := some (c + 1) } : StoreState) = s2 := by
          simpa [createTicketOp, hh, hc] using h
        subst h2'
        exact ⟨rfl, rfl, rfl⟩

/-- Claim C6 witness: updating the ticket with ID 1 at server time 7 with
no business fields still stamps `dateUpdated = 7` and keeps
`dateCreated`. -/
theorem update_timestamp_discipline_witness :
    ∃ s2 r, updateTicketOp oneTicketState 7
        { id := 1, title := "", price := 0, dateCreated := 0, dateUpdated := 0 } =
      .ok (s2, r) ∧ r.dateUpdated = 7 ∧
      r.dateCreated = (mkCreatedDoc 1 cexTicket).dateCreated := by
  obtain ⟨⟨s2, r, h1, hu, hc, _, _⟩, _, _⟩ :=
    update_timestamp_discipline oneTicketState 7
      { id := 1, title := "", price := 0, dateCreated := 0, dateUpdated := 0 }
      (mkCreatedDoc 1 cexTicket) (by decide)
  exact ⟨s2, r, h1, hu, hc⟩

/-- Claim C10: zero values act as "not supplied" in `UpdateTicket`.  An
empty input title or zero input price leaves the stored field unchanged;
consequently the operation can only yield an empty title or zero price if
the stored value already was such, and an update supplying neither field
changes only `dateUpdated`. -/
theorem update_zero_value_sentinels (s : StoreState) (now : Nat) (t d : Ticket)
    (hd : findTicket s t.id = some d) :
    ∃ s2 r, updateTicketOp s now t = .ok (s2, r) ∧
      (t.title = "" → r.title = d.title) ∧
      (t.price = 0 → r.price = d.price) ∧
      (r.title = "" → d.title = "") ∧
      (r.price = 0 → d.price = 0) ∧
      (t.title = "" ∧ t.price = 0 → r = { d with dateUpdated := now }) := by
  refine ⟨_, _, updateTicketOp_eq s now t d hd, ?_, ?_, ?_, ?_, ?_⟩
  · intro h1
    simp [applyUpdates, h1]
  · intro hp
    simp [applyUpdates, hp]
  · intro h
    by_cases h1 : t.title = ""
    · simpa [applyUpdates, h1] using h
    · simp [applyUpdates, h1] at h
  · intro h
    by_cases hp : t.price = 0
    · simpa [applyUpdates, hp] using h
    · simp [applyUpdates, hp] at h
  · rintro ⟨h1, hp⟩
    simp [applyUpdates, h1, hp]

/-- Claim C10 witness: updating the ticket with ID 1 with an empty title
and zero price changes only `dateUpdated`. -/
theorem update_zero_value_sentinels_witness :
    ∃ s2 r, updateTicketOp oneTicketState 9
        { id := 1, title := "", price := 0, dateCreated := 0, dateUpdated := 0 } =
      .ok (s2, r) ∧ r = { mkCreatedDoc 1 cexTicket with dateUpdated := 9 } := by
  obtain ⟨s2, r, h1, _, _, _, _, h6⟩ :=
    update_zero_value_sentinels oneTicketState 9
      { id := 1, title := "", price := 0, dateCreated := 0, dateUpdated := 0 }
      (mkCreatedDoc 1 cexTicket) (by decide)
  exact ⟨s2, r, h1, h6 ⟨rfl, rfl⟩⟩

/-- Claim C8: `ReadTickets` error discrimination.  A supplied `After`
cursor that does not resolve fails with `NotFound`; with the `After`
cursor absent or resolved, a supplied `Before` cursor that does not
resolve fails with `NotFound`; with both cursors absent or resolved, a
missing counter document fails with the distinct `CounterNotFound`.  In
every failure case the operation returns an error, hence no tickets and no
metadata. -/
theorem readTickets_error_discrimination (s : StoreState) (f : Filter) :
    (f.after ≠ 0 → findTicket s f.after = none →
      readTicketsOp s f = .error .ticketNotFound) ∧
    (∀ aft, resolveCursor s f.after = .ok aft →
      f.before ≠ 0 → findTicket s f.before = none →
      readTicketsOp s f = .error .ticketNotFound) ∧
    (∀ aft bef, resolveCursor s f.after = .ok aft →
      resolveCursor s f.before = .ok bef → s.counter = none →
      readTicketsOp s f = .error .counterNotFound) ∧
    StoreErr.counterNotFound ≠ StoreErr.ticketNotFound := by
  refine ⟨?_, ?_, ?_, by decide⟩
  · intro h0 hfind
    have ha : resolveCursor s f.after = .error .ticketNotFound := by
      simp only [resolveCursor, beq_iff_eq, if_neg h0, hfind]
    simp only [readTicketsOp, ha]
  · intro aft ha h0 hfind
    have hb : resolveCursor s f.before = .error .ticketNotFound := by
      simp only [resolveCursor, beq_iff_eq, if_neg h0, hfind]
    simp only [readTicketsOp, ha, hb]
  · intro aft bef ha hb hc
    simp only [readTicketsOp, ha, hb, hc]

/-- Claim C8 witness: on a store with one ticket (ID 1) and a counter, an
unresolved `After` cursor 9 yields `NotFound`; on a store with no counter
document, a cursor-free query yields `CounterNotFound`. -/
theorem readTickets_error_discrimination_witness :
    readTicketsOp oneTicketState { before := 0, after := 9, limit := 5 } =
      .error .ticketNotFound ∧
    readTicketsOp noCounterState { before := 0, after := 0, limit := 5 } =
      .error .counterNotFound :=
  ⟨(readTickets_error_discrimination oneTicketState
      { before := 0, after := 9, limit := 5 }).1 (by decide) (by decide),
   (readTickets_error_discrimination noCounterState
      { before := 0, after := 0, limit := 5 }).2.2.1 none none
      (by decide) (by decide) (by decide)⟩

/-! Query-order lemmas for the pagination proofs. -/

/-- The strict query order, as a proposition. -/
theorem precedes_iff (a b : Ticket) :
    precedes a b = true ↔
      b.dateCreated < a.dateCreated ∨
        (a.dateCreated = b.dateCreated ∧ b.id < a.id) := by
  simp [precedes]

/-- The non-strict query order, as a proposition. -/
theorem docLe_iff (a b : Ticket) :
    docLe a b = true ↔
      b.dateCreated < a.dateCreated ∨
        (a.dateCreated = b.dateCreated ∧ b.id ≤ a.id) := by
  simp [docLe]

/-- `precedes` is irreflexive. -/
theorem precedes_irrefl (a : Ticket) : precedes a a = false := by
  rw [Bool.eq_false_iff]
  intro h
  rw [precedes_iff] at h
  omega

/-- `precedes` is asymmetric. -/
theorem precedes_asymm (a b : Ticket) (h : precedes a b = true) :
    precedes b a = false := by
  rw [precedes_iff] at h
  rw [Bool.eq_false_iff]
  intro h2
  rw [precedes_iff] at h2
  omega

/-- The non-strict order plus distinct IDs gives the strict order. -/
theorem docLe_ne_precedes (a b : Ticket) (hle : docLe a b = true)
    (hne : a.id ≠ b.id) : precedes a b = true := by
  rw [docLe_iff] at hle
  rw [precedes_iff]
  omega

/-- The query order refines descending creation times. -/
theorem docLe_dateCreated (a b : Ticket) (h : docLe a b = true) :
    b.dateCreated ≤ a.dateCreated := by
  rw [docLe_iff] at h
  omega

/-- Sorting is a permutation of the collection. -/
theorem sortDesc_perm (l : List Ticket) : (sortDesc l).Perm l :=
  List.perm_insertionSort queryLe l

/-- The sorted collection is pairwise in the query order. -/
theorem sortDesc_sorted (l : List Ticket) : (sortDesc l).Pairwise queryLe :=
  List.sorted_insertionSort queryLe l

/-- Membership is preserved by sorting. -/
theorem mem_sortDesc (l : List Ticket) (d : Ticket) :
    d ∈ sortDesc l ↔ d ∈ l :=
  (sortDesc_perm l).mem_iff

/-- Distinct IDs survive sorting. -/
theorem sortDesc_nodup_ids (l : List Ticket)
    (h : (l.map Ticket.id).Nodup) : ((sortDesc l).map Ticket.id).Nodup :=
  (((sortDesc_perm l).map Ticket.id).nodup_iff).mpr h

/-- With pairwise-distinct IDs the sorted collection is pairwise in the
strict query order. -/
theorem sortDesc_pairwise_precedes (l : List Ticket)
    (h : (l.map Ticket.id).Nodup) :
    (sortDesc l).Pairwise (fun a b => precedes a b = true) := by
  have h1 : (sortDesc l).Pairwise queryLe := sortDesc_sorted l
  have h2 : (sortDesc l).Pairwise (fun a b => a.id ≠ b.id) :=
    List.pairwise_map.mp (sortDesc_nodup_ids l h)
  exact (h1.and h2).imp (fun hab => docLe_ne_precedes _ _ hab.1 hab.2)

/-- With pairwise-distinct IDs, `find?` by ID locates any member. -/
theorem find?_id_of_mem (l : List Ticket) (d : Ticket)
    (hnd : (l.map Ticket.id).Nodup) (hm : d ∈ l) :
    l.find? (fun x => x.id == d.id) = some d := by
  induction l with
  | nil => cases hm
  | cons y l ih =>
      simp only [List.map_cons, List.nodup_cons] at hnd
      rcases List.mem_cons.mp hm with rfl | hm2
      · exact List.find?_cons_of_pos _ (by simp)
      · have hy : y.id ≠ d.id := by
          intro he
          exact hnd.1 (he ▸ List.mem_map_of_mem Ticket.id hm2)
        rw [List.find?_cons_of_neg (p := fun x : Ticket => x.id == d.id) _
          (by simpa using hy)]
        exact ih hnd.2 hm2

/-- Restricting the strictly-ordered collection to strictly after a member
cuts off exactly the prefix up to that member. -/
theorem filter_precedes_split (l₁ l₂ : List Ticket) (x : Ticket)
    (h : (l₁ ++ x :: l₂).Pairwise (fun a b => precedes a b = true)) :
    (l₁ ++ x :: l₂).filter (fun d => precedes x d) = l₂ := by
  obtain ⟨h1, hx, h3⟩ := List.pairwise_append.mp h
  have hxl : ∀ z ∈ l₂, precedes x z = true := (List.pairwise_cons.mp hx).1
  have hl1 : l₁.filter (fun d => precedes x d) = [] := by
    rw [List.filter_eq_nil_iff]
    intro a ha
    simp [precedes_asymm a x (h3 a ha x (List.mem_cons_self x l₂))]
  rw [List.filter_append, hl1,
    List.filter_cons_of_neg (by simp [precedes_irrefl]),
    List.filter_eq_self.mpr (fun a ha => hxl a ha), List.nil_append]

/-- A query with no cursors returns the first `limit` rows of the ordered
collection. -/
theorem pageFor_none_none (s : StoreState) (limit : Nat) :
    pageFor s none none limit = (sortDesc s.tickets).take limit := by
  simp [pageFor]

/-- A query whose `StartAfter` cursor document sits at a known position of
the ordered collection returns the first `limit` rows strictly after that
position. -/
theorem pageFor_after (s : StoreState) (x : Ticket) (limit : Nat)
    (l₁ l₂ : List Ticket) (hnd : (s.tickets.map Ticket.id).Nodup)
    (hsplit : sortDesc s.tickets = l₁ ++ x :: l₂) :
    pageFor s (some x) none limit = l₂.take limit := by
  have hp : (l₁ ++ x :: l₂).Pairwise (fun a b => precedes a b = true) := by
    rw [← hsplit]
    exact sortDesc_pairwise_precedes s.tickets hnd
  unfold pageFor
  rw [hsplit]
  simp only [Bool.and_true]
  rw [filter_precedes_split l₁ l₂ x hp]

/-- The successful shape of `ReadTickets`: page, boundary cursors, and
counter total. -/
theorem readTicketsOp_ok (s : StoreState) (f : Filter) (c : Int)
    (aft bef : Option Ticket) (hc : s.counter = some c)
    (ha : resolveCursor s f.after = .ok aft)
    (hb : resolveCursor s f.before = .ok bef) :
    readTicketsOp s f =
      .ok (pageFor s aft bef f.limit,
           { before := metaBefore (pageFor s aft bef f.limit),
             after := metaAfter (pageFor s aft bef f.limit),
             total := c }) := by
  simp only [readTicketsOp, ha, hb, hc]

/-- Inversion of a successful `ReadTickets`. -/
theorem readTicketsOp_ok_inv (s : StoreState) (f : Filter)
    (tt : List Ticket) (md : Metadata)
    (h : readTicketsOp s f = .ok (tt, md)) :
    ∃ aft bef c, resolveCursor s f.after = .ok aft ∧
      resolveCursor s f.before = .ok bef ∧ s.counter = some c ∧
      tt = pageFor s aft bef f.limit ∧
      md = { before := metaBefore tt, after := metaAfter tt, total := c } := by
  cases ha : resolveCursor s f.after with
  | error e => simp [readTicketsOp, ha] at h
  | ok aft =>
      cases hb : resolveCursor s f.before with
      | error e => simp [readTicketsOp, ha, hb] at h
      | ok bef =>
          cases hc : s.counter with
          | none => simp [readTicketsOp, ha, hb, hc] at h
          | some c =>
              rw [readTicketsOp_ok s f c aft bef hc ha hb] at h
              obtain ⟨h1, h2⟩ := Prod.mk.injEq .. ▸ (Except.ok.injEq .. ▸ h)
              exact ⟨aft, bef, c, rfl, rfl, rfl, h1.symm, by rw [← h2, h1]⟩

/-- Any successful `ReadTickets` page is ordered by `dateCreated`
descending, holds at most `Limit` tickets, and carries the IDs of its
first and last tickets as the `Before`/`After` cursors. -/
theorem page_shape (s : StoreState) (f : Filter) (tt : List Ticket)
    (md : Metadata) (h : readTicketsOp s f = .ok (tt, md)) :
    tt.Pairwise (fun a b => b.dateCreated ≤ a.dateCreated) ∧
    tt.length ≤ f.limit ∧
    md.before = metaBefore tt ∧ md.after = metaAfter tt := by
  obtain ⟨aft, bef, c, ha, hb, hc, htt, hmd⟩ := readTicketsOp_ok_inv s f tt md h
  subst htt
  refine ⟨?_, ?_, by rw [hmd], by rw [hmd]⟩
  · have h1 : (pageFor s aft bef f.limit).Pairwise queryLe := by
      unfold pageFor
      exact List.Pairwise.sublist (List.take_sublist _ _)
        ((sortDesc_sorted s.tickets).filter _)
    exact h1.imp (fun hab => docLe_dateCreated _ _ hab)
  · unfold pageFor
    simp only [List.length_take]
    exact Nat.min_le_left _ _

/-- Creation times beat the tiebreak in the query order. -/
theorem queryLe_of_lt (x y : Ticket) (hxy : y.dateCreated < x.dateCreated) :
    queryLe x y := by
  simp only [queryLe, docLe_iff]
  omega

/-- The spec's pagination traversal scenario: create A, B, C at strictly
increasing times; the first page of size 2 is `[C, B]` with cursors
`Before = C.id`, `After = B.id` and `Total = 3`; the page after `B.id` is
`[A]` with `Total = 3`. -/
theorem scenario_pagination (tA tB tC : Ticket) (na nb nc : Nat)
    (h1 : na < nb) (h2 : nb < nc)
    (hab : tA.id ≠ tB.id) (hac : tA.id ≠ tC.id) (hbc : tB.id ≠ tC.id)
    (hb0 : tB.id ≠ 0) :
    runOps emptyState [Op.create na tA, Op.create nb tB, Op.create nc tC] =
      some { tickets := [mkCreatedDoc nc tC, mkCreatedDoc nb tB,
                         mkCreatedDoc na tA],
             counter := some 3 } ∧
    readTicketsOp
        { tickets := [mkCreatedDoc nc tC, mkCreatedDoc nb tB,
                      mkCreatedDoc na tA], counter := some 3 }
        { before := 0, after := 0, limit := 2 } =
      .ok ([mkCreatedDoc nc tC, mkCreatedDoc nb tB],
           { before := tC.id, after := tB.id, total := 3 }) ∧
    readTicketsOp
        { tickets := [mkCreatedDoc nc tC, mkCreatedDoc nb tB,
                      mkCreatedDoc na tA], counter := some 3 }
        { before := 0, after := tB.id, limit := 2 } =
      .ok ([mkCreatedDoc na tA],
           { before := tA.id, after := tA.id, total := 3 }) := by
  have e1 : (tA.id == tB.id) = false := by simp [hab]
  have e2 : (tB.id == tC.id) = false := by simp [hbc]
  have e3 : (tA.id == tC.id) = false := by simp [hac]
  have hCB : queryLe (mkCreatedDoc nc tC) (mkCreatedDoc nb tB) :=
    queryLe_of_lt _ _ (by simp [mkCreatedDoc]; omega)
  have hCA : queryLe (mkCreatedDoc nc tC) (mkCreatedDoc na tA) :=
    queryLe_of_lt _ _ (by simp [mkCreatedDoc]; omega)
  have hBA : queryLe (mkCreatedDoc nb tB) (mkCreatedDoc na tA) :=
    queryLe_of_lt _ _ (by simp [mkCreatedDoc]; omega)
  have hsorted : sortDesc [mkCreatedDoc nc tC, mkCreatedDoc nb tB,
      mkCreatedDoc na tA] = [mkCreatedDoc nc tC, mkCreatedDoc nb tB,
      mkCreatedDoc na tA] := by
    apply List.Sorted.insertionSort_eq
    refine List.pairwise_cons.mpr ⟨?_, List.pairwise_cons.mpr
      ⟨?_, List.pairwise_singleton _ _⟩⟩
    · intro b hb
      rcases List.mem_cons.mp hb with rfl | hb2
      · exact hCB
      · rcases List.mem_singleton.mp hb2 with rfl
        exact hCA
    · intro b hb
      rcases List.mem_singleton.mp hb with rfl
      exact hBA
  have hnd : (([mkCreatedDoc nc tC, mkCreatedDoc nb tB,
      mkCreatedDoc na tA]).map Ticket.id).Nodup := by
    rw [show ([mkCreatedDoc nc tC, mkCreatedDoc nb tB,
      mkCreatedDoc na tA]).map Ticket.id = [tC.id, tB.id, tA.id] from rfl]
    refine List.nodup_cons.mpr ⟨?_, List.nodup_cons.mpr
      ⟨?_, List.nodup_singleton _⟩⟩
    · intro hmem
      rcases List.mem_cons.mp hmem with h | h
      · exact hbc h.symm
      · exact hac (List.mem_singleton.mp h).symm
    · intro hmem
      exact hab (List.mem_singleton.mp hmem).symm
  refine ⟨?_, ?_, ?_⟩
  · simp only [runOps, applyOp, createTicketOp, hasTicket, emptyState,
      List.any_nil, List.any_cons, mkCreatedDoc, e1, e2, e3,
      Bool.or_false, Bool.false_or, if_false, Bool.false_eq_true]
    norm_num
  · have hpage : pageFor
        { tickets := [mkCreatedDoc nc tC, mkCreatedDoc nb tB,
                      mkCreatedDoc na tA], counter := some 3 }
        none none 2 = [mkCreatedDoc nc tC, mkCreatedDoc nb tB] := by
      rw [pageFor_none_none]
      rw [show sortDesc [mkCreatedDoc nc tC, mkCreatedDoc nb tB,
        mkCreatedDoc na tA] = _ from hsorted]
      rfl
    have hA := readTicketsOp_ok
      { tickets := [mkCreatedDoc nc tC, mkCreatedDoc nb tB,
                    mkCreatedDoc na tA], counter := some 3 }
      { before := 0, after := 0, limit := 2 } 3 none none rfl rfl rfl
    rw [hA, hpage]
    rfl
  · have hfindB : findTicket
        { tickets := [mkCreatedDoc nc tC, mkCreatedDoc nb tB,
                      mkCreatedDoc na tA], counter := some 3 }
        tB.id = some (mkCreatedDoc nb tB) := by
      unfold findTicket
      rw [List.find?_cons_of_neg (p := fun d : Ticket => d.id == tB.id) _
        (by simp [mkCreatedDoc, Ne.symm hbc])]
      exact List.find?_cons_of_pos _ (by simp [mkCreatedDoc])
    have haft : resolveCursor
        { tickets := [mkCreatedDoc nc tC, mkCreatedDoc nb tB,
                      mkCreatedDoc na tA], counter := some 3 }
        tB.id = .ok (some (mkCreatedDoc nb tB)) := by
      simp only [resolveCursor, beq_iff_eq, if_neg hb0, hfindB]
    have hpage2 : pageFor
        { tickets := [mkCreatedDoc nc tC, mkCreatedDoc nb tB,
                      mkCreatedDoc na tA], counter := some 3 }
        (some (mkCreatedDoc nb tB)) none 2 = [mkCreatedDoc na tA] := by
      rw [pageFor_after _ (mkCreatedDoc nb tB) 2 [mkCreatedDoc nc tC]
        [mkCreatedDoc na tA] hnd
        (by rw [show sortDesc _ = _ from hsorted]; rfl)]
      rfl
    have hA := readTicketsOp_ok
      { tickets := [mkCreatedDoc nc tC, mkCreatedDoc nb tB,
                    mkCreatedDoc na tA], counter := some 3 }
      { before := 0, after := tB.id, limit := 2 } 3
      (some (mkCreatedDoc nb tB)) none rfl haft rfl
    rw [hA, hpage2]
    rfl

/-- Traversal invariant: when the collection splits as a consumed prefix
and a remaining suffix of the query order, and the cursor is either absent
(nothing consumed) or the ID of the last consumed ticket, the rest of the
traversal returns exactly the remaining suffix. -/
theorem paginateAux_join (s : StoreState) (limit : Nat) (c : Int)
    (hc : s.counter = some c) (hnd : (s.tickets.map Ticket.id).Nodup)
    (hnz : ∀ d ∈ s.tickets, d.id ≠ 0) (hl : 1 ≤ limit) :
    ∀ fuel l₁ l₂ cursor, sortDesc s.tickets = l₁ ++ l₂ →
      l₂.length < fuel →
      ((cursor = 0 ∧ l₁ = []) ∨ ∃ x l₀, l₁ = l₀ ++ [x] ∧ cursor = x.id) →
      (paginateAux s limit cursor fuel).flatten = l₂ := by
  intro fuel
  induction fuel with
  | zero =>
      intro l₁ l₂ cursor hsplit hlen hcur
      omega
  | succ fuel ih =>
      intro l₁ l₂ cursor hsplit hlen hcur
      have hpage : readTicketsOp s
          { before := 0, after := cursor, limit := limit } =
          .ok (l₂.take limit,
               { before := metaBefore (l₂.take limit),
                 after := metaAfter (l₂.take limit), total := c }) := by
        rcases hcur with ⟨rfl, rfl⟩ | ⟨x, l₀, rfl, rfl⟩
        · rw [readTicketsOp_ok s { before := 0, after := 0, limit := limit }
            c none none hc rfl rfl, pageFor_none_none,
            show sortDesc s.tickets = l₂ from by simpa using hsplit]
        · have hmem : x ∈ s.tickets :=
            (mem_sortDesc s.tickets x).mp (by rw [hsplit]; simp)
          have hx0 : x.id ≠ 0 := hnz x hmem
          have hfind : findTicket s x.id = some x :=
            find?_id_of_mem s.tickets x hnd hmem
          have haft : resolveCursor s x.id = .ok (some x) := by
            simp only [resolveCursor, beq_iff_eq, if_neg hx0, hfind]
          rw [readTicketsOp_ok s { before := 0, after := x.id, limit := limit }
            c (some x) none hc haft rfl,
            pageFor_after s x limit l₀ l₂ hnd (by rw [hsplit]; simp)]
      cases l₂ with
      | nil =>
          simp [paginateAux, hpage]
      | cons y l₂t =>
          obtain ⟨n, rfl⟩ : ∃ n, limit = n + 1 := ⟨limit - 1, by omega⟩
          have hpage' : readTicketsOp s
              { before := 0, after := cursor, limit := n + 1 } =
              .ok (y :: l₂t.take n,
                   { before := metaBefore (y :: l₂t.take n),
                     after := metaAfter (y :: l₂t.take n), total := c }) := by
            simpa using hpage
          have hne : (y :: l₂t.take n) ≠ [] := by simp
          have hafter : metaAfter (y :: l₂t.take n) =
              ((y :: l₂t.take n).getLast hne).id := by
            simp [metaAfter, List.getLast?_eq_getLast (y :: l₂t.take n) hne]
          have hrec : (paginateAux s (n + 1)
              (metaAfter (y :: l₂t.take n)) fuel).flatten = l₂t.drop n := by
            apply ih (l₁ ++ (y :: l₂t.take n)) (l₂t.drop n)
            · rw [hsplit, List.append_assoc]
              simp [List.take_append_drop]
            · simp only [List.length_drop]
              simp only [List.length_cons] at hlen
              omega
            · refine Or.inr ⟨(y :: l₂t.take n).getLast hne,
                l₁ ++ (y :: l₂t.take n).dropLast, ?_, hafter⟩
              rw [List.append_assoc, List.dropLast_append_getLast hne]
          simp only [paginateAux, hpage']
          simp only [List.flatten_cons]
          rw [hrec]
          simp [List.take_append_drop]

/-- Claim C4: pagination correctness.  (1) Every successful `ReadTickets`
page is ordered by `dateCreated` descending with at most `Limit` tickets,
and `Metadata.Before`/`Metadata.After` are the IDs of the first/last
tickets of the page.  (2) Creating A, B, C at strictly increasing times,
`ReadTickets({Limit:2})` returns `[C, B]` with `Before = C.id`,
`After = B.id`, `Total = 3`, and `ReadTickets({After: B.id, Limit:2})`
returns `[A]` with `Total = 3`.  (3) Concatenating successive pages via
`After` cursors yields the whole ordered collection — a permutation of the
stored tickets, hence no duplicates and no omissions. -/
theorem readTickets_pagination_correct :
    (∀ s f tt md, readTicketsOp s f = .ok (tt, md) →
        tt.Pairwise (fun a b => b.dateCreated ≤ a.dateCreated) ∧
        tt.length ≤ f.limit ∧
        md.before = metaBefore tt ∧ md.after = metaAfter tt) ∧
    (∀ tA tB tC na nb nc, na < nb → nb < nc →
        tA.id ≠ tB.id → tA.id ≠ tC.id → tB.id ≠ tC.id → tB.id ≠ 0 →
        runOps emptyState
            [Op.create na tA, Op.create nb tB, Op.create nc tC] =
          some { tickets := [mkCreatedDoc nc tC, mkCreatedDoc nb tB,
                             mkCreatedDoc na tA], counter := some 3 } ∧
        readTicketsOp
            { tickets := [mkCreatedDoc nc tC, mkCreatedDoc nb tB,
                          mkCreatedDoc na tA], counter := some 3 }
            { before := 0, after := 0, limit := 2 } =
          .ok ([mkCreatedDoc nc tC, mkCreatedDoc nb tB],
               { before := tC.id, after := tB.id, total := 3 }) ∧
        readTicketsOp
            { tickets := [mkCreatedDoc nc tC, mkCreatedDoc nb tB,
                          mkCreatedDoc na tA], counter := some 3 }
            { before := 0, after := tB.id, limit := 2 } =
          .ok ([mkCreatedDoc na tA],
               { before := tA.id, after := tA.id, total := 3 })) ∧
    (∀ s limit c, s.counter = some c → (s.tickets.map Ticket.id).Nodup →
        (∀ d ∈ s.tickets, d.id ≠ 0) → 1 ≤ limit →
        (paginate s limit).flatten = sortDesc s.tickets ∧
        (paginate s limit).flatten.Perm s.tickets) := by
  refine ⟨page_shape, ?_, ?_⟩
  · intro tA tB tC na nb nc h1 h2 hab hac hbc hb0
    exact scenario_pagination tA tB tC na nb nc h1 h2 hab hac hbc hb0
  · intro s limit c hc hnd hnz hl
    have hj : (paginate s limit).flatten = sortDesc s.tickets := by
      unfold paginate
      apply paginateAux_join s limit c hc hnd hnz hl (s.tickets.length + 1)
        [] (sortDesc s.tickets) 0
      · rfl
      · have := (sortDesc_perm s.tickets).length_eq
        omega
      · exact Or.inl ⟨rfl, rfl⟩
    exact ⟨hj, hj ▸ sortDesc_perm s.tickets⟩

/-- Claim C4 witness: the three-ticket store (IDs 5, 6, 7 created at times
1, 2, 3): the scenario computes as stated, the first page holds at most 2
tickets, and the full traversal with pages of 2 is a permutation of the
stored tickets. -/
theorem readTickets_pagination_correct_witness :
    ([mkCreatedDoc 3 wTicketC, mkCreatedDoc 2 wTicketB] :
        List Ticket).length ≤ 2 ∧
    runOps emptyState
        [Op.create 1 wTicketA, Op.create 2 wTicketB, Op.create 3 wTicketC] =
      some threeTicketState ∧
    (paginate threeTicketState 2).flatten.Perm threeTicketState.tickets := by
  have h1 := (readTickets_pagination_correct.1 threeTicketState
    { before := 0, after := 0, limit := 2 }
    [mkCreatedDoc 3 wTicketC, mkCreatedDoc 2 wTicketB]
    { before := wTicketC.id, after := wTicketB.id, total := 3 }
    (by decide)).2.1
  have h2 := (readTickets_pagination_correct.2.1 wTicketA wTicketB wTicketC
    1 2 3 (by decide) (by decide) (by decide) (by decide) (by decide)
    (by decide)).1
  have h3 := (readTickets_pagination_correct.2.2 threeTicketState 2 3 rfl
    (by decide) (by decide) (by decide)).2
  exact ⟨h1, h2, h3⟩
